import Mathlib

/-!
Shallow embedding of the training wrapper module src/trainer.py:
task and cluster resolution (TaskSpec, get_task_spec), the Trainer
constructor with its shared mutable default hook list, the training control
flow of Trainer.train, and the StopAtTimeHook session hook.

External collaborators are modelled as explicit inputs rather than stubbed
behaviour: argparse results and the process environment are passed in as
records, the tensorport path resolvers (get_data_path, get_logs_path) are
passed in as functions, json.loads of TF_CONFIG is represented by the
already parsed record (json parsing is library code, not code of this
module), wall clock time (time.time) is an explicit integer timestamp, and
tf.train.ClusterSpec is represented by the role-to-host-list mapping it is
built from.  Python runtime errors (KeyError, TypeError, AttributeError)
are modelled with Except.
-/

namespace TrainerPy

/-- Python values that can flow into the task index position of TaskSpec:
None, a string (from argparse or os.environ), or an int (a JSON number from
TF_CONFIG, or the literal default 0). -/
inductive PyVal where
  | vnone : PyVal
  | vstr : String → PyVal
  | vint : Int → PyVal
deriving DecidableEq

/-- Python values that can flow into the host-list positions of TaskSpec:
None, a single comma separated string, or a list of strings. -/
inductive HostsVal where
  | vnone : HostsVal
  | vstr : String → HostsVal
  | vlist : List String → HostsVal
deriving DecidableEq

/-- Python truthiness of a host argument: None, the empty string and the
empty list are falsy, everything else is truthy. -/
def HostsVal.truthy : HostsVal → Bool
  | HostsVal.vnone => false
  | HostsVal.vstr s => s != ""
  | HostsVal.vlist xs => xs != []

/-- Python str.split(',') on the character list of a string: every comma is
a separator, adjacent separators and string ends produce empty fields, the
empty string yields one empty field. -/
def splitCommaChars : List Char → List (List Char)
  | [] => [[]]
  | c :: rest =>
      match splitCommaChars rest with
      | [] => [[]]
      | g :: gs => if c = ',' then [] :: g :: gs else (c :: g) :: gs

/-- Python str.split(',') as used on src/trainer.py lines 22-23. -/
def pySplitComma (s : String) : List String :=
  (splitCommaChars s.data).map List.asString

/-- The value `ps_hosts if isinstance(ps_hosts, list) else ps_hosts.split(',')`
from TaskSpec.__init__ (src/trainer.py lines 22-23): a list is used as is, a
string is split on commas.  Only evaluated under the truthiness guard, so the
None case is unreachable in the source. -/
def HostsVal.toHostList : HostsVal → List String
  | HostsVal.vstr s => pySplitComma s
  | HostsVal.vlist xs => xs
  | HostsVal.vnone => []

/-- Python equality (==) between an index value and another value, covering
the cases that occur at the chief test `task_spec.index == 0`: values of
different Python types (str vs int, None vs int) compare unequal. -/
def pyEq : PyVal → PyVal → Bool
  | PyVal.vint n, PyVal.vint m => n == m
  | PyVal.vstr s, PyVal.vstr t => s == t
  | PyVal.vnone, PyVal.vnone => true
  | _, _ => false

/-- TaskSpec (src/trainer.py lines 11-26).  The cluster_spec field holds the
role-to-host-list mapping (ps hosts, worker hosts) the source passes to
tf.train.ClusterSpec, or none when no cluster was built. -/
structure TaskSpec where
  job_name : String
  index : PyVal
  cluster_spec : Option (List String × List String)
deriving DecidableEq

/-- TaskSpec.__init__ (src/trainer.py lines 17-26).  Note the source default
for job_name is the literal string 'mater'.  The cluster is built only when
`ps_hosts and worker_hosts` is truthy. -/
def TaskSpec.init (job_name : String) (index : PyVal)
    (ps_hosts worker_hosts : HostsVal) : TaskSpec :=
  { job_name := job_name
    index := index
    cluster_spec :=
      if ps_hosts.truthy && worker_hosts.truthy then
        some (ps_hosts.toHostList, worker_hosts.toHostList)
      else none }

/-- The parsed argparse result of get_task_spec (src/trainer.py lines 36-41):
each flag defaults to None and is a string when given. -/
structure Args where
  job_name : Option String
  task_index : Option String
  ps_hosts : Option String
  worker_hosts : Option String

/-- The `task` object of a parsed TF_CONFIG JSON value, as accessed on
src/trainer.py line 54 (`task_data['type']`, `task_data['index']`). -/
structure TFTask where
  type : String
  index : PyVal

/-- The `cluster` object of a parsed TF_CONFIG JSON value, as accessed on
src/trainer.py line 55 (`cluster_data['ps']`, `cluster_data['worker']`). -/
structure TFCluster where
  ps : HostsVal
  worker : HostsVal

/-- A parsed TF_CONFIG JSON value.  A missing or falsy `task` (resp.
`cluster`) member is represented by none, matching the
`env.get('task', None) or default` idiom on src/trainer.py lines 52-53. -/
structure TFConfig where
  task : Option TFTask
  cluster : Option TFCluster

/-- The process environment as read by get_task_spec: the four plain
variables and, when present, the already JSON-parsed TF_CONFIG value. -/
structure Env where
  job_name : Option String
  task_index : Option String
  ps_hosts : Option String
  worker_hosts : Option String
  tf_config : Option TFConfig

/-- Python exceptions raised by the embedded code paths. -/
inductive PyError where
  | keyError : String → PyError
  | typeError : String → PyError
  | attributeError : String → PyError
deriving DecidableEq

/-- Python truthiness of an argparse string flag (`if args.job_name:`):
None and the empty string are falsy. -/
def optStrTruthy : Option String → Bool
  | some s => s != ""
  | none => false

/-- An argparse flag value as it reaches the TaskSpec index parameter:
None stays None, a given flag is the raw string (no int conversion). -/
def optPyVal : Option String → PyVal
  | some s => PyVal.vstr s
  | none => PyVal.vnone

/-- An argparse flag or environment value as it reaches a TaskSpec hosts
parameter: None stays None, a given value is the raw string. -/
def optHosts : Option String → HostsVal
  | some s => HostsVal.vstr s
  | none => HostsVal.vnone

/-- get_task_spec (src/trainer.py lines 29-57).  CLI branch: taken when
args.job_name is truthy.  Environment branch: taken when JOB_NAME is set;
there `os.environ['TASK_INDEX']` raises KeyError when TASK_INDEX is unset,
and otherwise `os.environ.get(['PS_HOSTS'], None)` raises TypeError because
the single-element list key is unhashable (Mapping.get only swallows
KeyError), so this branch never constructs a TaskSpec.  TF_CONFIG branch:
uses the parsed JSON with the defaults of lines 52-53.  Final branch:
`TaskSpec()` with the source defaults job_name='mater', index=0, no hosts. -/
def get_task_spec (args : Args) (env : Env) : Except PyError TaskSpec :=
  if optStrTruthy args.job_name then
    Except.ok (TaskSpec.init (args.job_name.getD "") (optPyVal args.task_index)
      (optHosts args.ps_hosts) (optHosts args.worker_hosts))
  else if env.job_name.isSome then
    match env.task_index with
    | none => Except.error (PyError.keyError "TASK_INDEX")
    | some _ => Except.error (PyError.typeError "unhashable list key in os.environ.get")
  else
    match env.tf_config with
    | some cfg =>
        let task_data := cfg.task.getD { type := "master", index := PyVal.vint 0 }
        let cluster_data := cfg.cluster.getD { ps := HostsVal.vnone, worker := HostsVal.vnone }
        Except.ok (TaskSpec.init task_data.type task_data.index
          cluster_data.ps cluster_data.worker)
    | none => Except.ok (TaskSpec.init "mater" (PyVal.vint 0) HostsVal.vnone HostsVal.vnone)

/-- DatasetSpec (src/trainer.py lines 60-80): a pure data container. -/
structure DatasetSpec where
  name : String
  local_root : String
  local_repo : String
  path : String

/-- StopAtTimeHook instance state (src/trainer.py lines 177-191):
_time_running is set in __init__, _end_time only exists after begin()
(none models the attribute not being set yet). -/
structure StopAtTimeHook where
  time_running : Int
  end_time : Option Int
deriving DecidableEq

/-- StopAtTimeHook.__init__ (src/trainer.py lines 180-184). -/
def StopAtTimeHook.init (time_running : Int) : StopAtTimeHook :=
  { time_running := time_running, end_time := none }

/-- StopAtTimeHook.begin (src/trainer.py lines 186-187):
`self._end_time = time.time() + self._time_running`, with time.time()
passed in as the explicit timestamp `now`. -/
def StopAtTimeHook.begin (h : StopAtTimeHook) (now : Int) : StopAtTimeHook :=
  { h with end_time := some (now + h.time_running) }

/-- The session run context seen by after_run; request_stop calls are
counted so that requesting stop exactly once is observable. -/
structure RunContext where
  stop_requests : Nat
deriving DecidableEq

/-- run_context.request_stop(). -/
def RunContext.request_stop (c : RunContext) : RunContext :=
  { c with stop_requests := c.stop_requests + 1 }

/-- StopAtTimeHook.after_run (src/trainer.py lines 189-191):
`if time.time() > self._end_time: run_context.request_stop()`.  Calling it
before begin() would raise AttributeError in Python since _end_time is not
set; the hook state itself is never modified by after_run. -/
def StopAtTimeHook.after_run (h : StopAtTimeHook) (now : Int) (ctx : RunContext) :
    Except PyError RunContext :=
  match h.end_time with
  | some e => if e < now then Except.ok ctx.request_stop else Except.ok ctx
  | none => Except.error (PyError.attributeError "_end_time")

/-- A hook object in a hook list: either a StopAtTimeHook or some other,
caller supplied, SessionRunHook identified opaquely. -/
inductive Hook where
  | stopAtTime : StopAtTimeHook → Hook
  | other : Nat → Hook
deriving DecidableEq

/-- Which list object a Trainer field aliases: the shared default-argument
list of Trainer.__init__ (`hooks=[]` is evaluated once at function
definition time in Python) or a caller supplied list. -/
inductive HooksRef where
  | shared : HooksRef
  | own : List Hook → HooksRef
deriving DecidableEq

/-- Contents of the two shared default-argument list objects of
Trainer.__init__ (`hooks=[]`, `chief_only_hooks=[]`).  This is module level
mutable state: appends through a defaulted parameter persist here. -/
structure Defaults where
  hooks : List Hook
  chief_only_hooks : List Hook
deriving DecidableEq

/-- The hooks that Trainer.__init__ appends (src/trainer.py lines 116-117):
one fresh StopAtTimeHook when `max_time > 0`, nothing otherwise. -/
def stopHooksFor (max_time : Int) : List Hook :=
  if 0 < max_time then [Hook.stopAtTime (StopAtTimeHook.init max_time)] else []

/-- Which list the chief_only_hooks field aliases. -/
def chiefRef : Option (List Hook) → HooksRef
  | some l => HooksRef.own l
  | none => HooksRef.shared

/-- Trainer instance fields (src/trainer.py lines 104-118).  The session
config is opaque; the two hook fields record which list object they alias. -/
structure Trainer where
  data_dir : String
  log_dir : String
  save_checkpoint_secs : Int
  save_summaries_steps : Int
  log_step_count_steps : Int
  monitored_training_session_config : Option Unit
  hooks_ref : HooksRef
  chief_only_hooks_ref : HooksRef

/-- Trainer.__init__ (src/trainer.py lines 88-120).  The path resolvers are
the external tensorport functions, passed in.  A defaulted hooks argument
(none) binds self.hooks to the shared default list, so the conditional
append mutates that shared list; an explicit hooks argument (some l) binds
self.hooks to that list and the append goes there. -/
def Trainer.init (get_data_path : DatasetSpec → String)
    (get_logs_path : String → String)
    (dataset_spec : DatasetSpec) (log_dir : String) (max_time : Int)
    (save_checkpoint_secs save_summaries_steps log_step_count_steps : Int)
    (monitored_training_session_config : Option Unit)
    (hooks : Option (List Hook)) (chief_only_hooks : Option (List Hook))
    (st : Defaults) : Trainer × Defaults :=
  match hooks with
  | some l =>
      (Trainer.mk (get_data_path dataset_spec) (get_logs_path log_dir)
        save_checkpoint_secs save_summaries_steps log_step_count_steps
        monitored_training_session_config
        (HooksRef.own (l ++ stopHooksFor max_time)) (chiefRef chief_only_hooks), st)
  | none =>
      (Trainer.mk (get_data_path dataset_spec) (get_logs_path log_dir)
        save_checkpoint_secs save_summaries_steps log_step_count_steps
        monitored_training_session_config
        HooksRef.shared (chiefRef chief_only_hooks),
       Defaults.mk (st.hooks ++ stopHooksFor max_time) st.chief_only_hooks)

/-- The hooks list of a Trainer, read through its alias in the current
state of the shared default lists. -/
def Trainer.hooks (t : Trainer) (st : Defaults) : List Hook :=
  match t.hooks_ref with
  | HooksRef.shared => st.hooks
  | HooksRef.own l => l

/-- One full argument vector for a Trainer.__init__ call. -/
structure InitArgs where
  get_data_path : DatasetSpec → String
  get_logs_path : String → String
  dataset_spec : DatasetSpec
  log_dir : String
  max_time : Int
  save_checkpoint_secs : Int
  save_summaries_steps : Int
  log_step_count_steps : Int
  monitored_training_session_config : Option Unit
  hooks : Option (List Hook)
  chief_only_hooks : Option (List Hook)

/-- Trainer.__init__ applied to a packed argument vector. -/
def Trainer.initArgs (a : InitArgs) (st : Defaults) : Trainer × Defaults :=
  Trainer.init a.get_data_path a.get_logs_path a.dataset_spec a.log_dir
    a.max_time a.save_checkpoint_secs a.save_summaries_steps
    a.log_step_count_steps a.monitored_training_session_config
    a.hooks a.chief_only_hooks st

/-- The shared default-list state after a sequence of Trainer
constructions. -/
def runInits (st : Defaults) (l : List InitArgs) : Defaults :=
  l.foldl (fun s a => (Trainer.initArgs a s).2) st

/-- The hooks list an append targets: the explicit argument if one was
passed, the shared default list otherwise. -/
def hooks_before : Option (List Hook) → Defaults → List Hook
  | some l, _ => l
  | none, st => st.hooks

/-- The chief test of Trainer.train (src/trainer.py line 154):
`is_chief=(task_spec.index == 0)` under Python equality. -/
def is_chief (ts : TaskSpec) : Bool := pyEq ts.index (PyVal.vint 0)

/-- Observable events of one Trainer.train run, in order. -/
inductive TrainEvent where
  | createGraph : TrainEvent
  | preTrain : TrainEvent
  | trainStep : TrainEvent
  | postTrain : TrainEvent
deriving DecidableEq

/-- Outcome of Trainer.train: either the call blocks forever inside
server.join() (the tf.train.Server join never returns), or the session runs
to completion with the given chief flag and event trace. -/
inductive TrainOutcome where
  | serverJoin : TrainOutcome
  | completed : Bool → List TrainEvent → TrainOutcome
deriving DecidableEq

/-- The event trace of the session body (src/trainer.py lines 146-174):
graph construction, optional pre_train_fn, `steps` iterations of
train_step_fn (the loop runs until sess.should_stop()), optional
post_train_fn. -/
def sessionTrace (has_pre has_post : Bool) (steps : Nat) : List TrainEvent :=
  [TrainEvent.createGraph]
    ++ (if has_pre then [TrainEvent.preTrain] else [])
    ++ List.replicate steps TrainEvent.trainStep
    ++ (if has_post then [TrainEvent.postTrain] else [])

/-- Trainer.train control flow (src/trainer.py lines 122-174).  The task
spec is resolved by get_task_spec (errors propagate); with a cluster and
job_name 'ps' the call reaches server.join() and blocks forever, before any
graph construction or callback; otherwise the graph is built, the monitored
session opens with is_chief=(task_spec.index == 0), and the loop runs.  The
number of loop iterations and the presence of the optional callbacks are
explicit parameters. -/
def Trainer.train ( _self : Trainer) (args : Args) (env : Env)
    (has_pre has_post : Bool) (steps : Nat) : Except PyError TrainOutcome :=
  match get_task_spec args env with
  | Except.error e => Except.error e
  | Except.ok task_spec =>
      if task_spec.cluster_spec.isSome then
        if task_spec.job_name == "ps" then Except.ok TrainOutcome.serverJoin
        else Except.ok (TrainOutcome.completed (is_chief task_spec)
          (sessionTrace has_pre has_post steps))
      else Except.ok (TrainOutcome.completed (is_chief task_spec)
        (sessionTrace has_pre has_post steps))

/-- Sample Trainer.__init__ argument vector with defaulted hooks and the
given max_time, used to instantiate the hook-list theorems. -/
def sampleInit (m : Int) : InitArgs :=
  InitArgs.mk (fun _ => "/data/mnist") (fun s => s)
    (DatasetSpec.mk "tensorport/mnist" "/data" "mnist" "") "/logs" m
    600 100 100 none none none

/-- Sample Trainer instance for the Trainer.train theorems. -/
def sampleTrainer : Trainer :=
  Trainer.mk "/data/mnist" "/logs" 600 100 100 none
    (HooksRef.own []) (HooksRef.own [])

/-- Helper: on the environment branch (falsy CLI job name, JOB_NAME set)
get_task_spec raises KeyError or TypeError, depending on TASK_INDEX. -/
theorem get_task_spec_env_branch_error (args : Args) (env : Env)
    (hcli : optStrTruthy args.job_name = false)
    (henv : env.job_name.isSome = true) :
    get_task_spec args env
      = Except.error (match env.task_index with
          | none => PyError.keyError "TASK_INDEX"
          | some _ => PyError.typeError "unhashable list key in os.environ.get") := by
  cases hidx : env.task_index <;> simp [get_task_spec, hcli, henv, hidx]

/-- Claim C1: with no CLI flags and an empty environment, get_task_spec
falls through to `TaskSpec()` and returns index 0 and no cluster spec, but
the job name is the source default string 'mater' (a typo in
TaskSpec.__init__, line 17), not the 'master' the spec states; the
TF_CONFIG default path of line 52 spells the same default role 'master'. -/
theorem c1_local_default_spec :
    get_task_spec (Args.mk none none none none) (Env.mk none none none none none)
      = Except.ok (TaskSpec.mk "mater" (PyVal.vint 0) none)
    ∧ "mater" ≠ "master" := by
  exact ⟨rfl, by decide⟩

/-- Claim C2 (amended): whenever JOB_NAME is set and the CLI job name flag
is falsy, get_task_spec never returns a TaskSpec: it raises KeyError when
TASK_INDEX is unset and otherwise raises TypeError, because
`os.environ.get(['PS_HOSTS'], None)` passes an unhashable single-element
list as the mapping key. -/
theorem c2_env_fallback_always_raises (args : Args) (env : Env)
    (hcli : optStrTruthy args.job_name = false)
    (henv : env.job_name.isSome = true) :
    get_task_spec args env
      = Except.error (match env.task_index with
          | none => PyError.keyError "TASK_INDEX"
          | some _ => PyError.typeError "unhashable list key in os.environ.get") :=
  get_task_spec_env_branch_error args env hcli henv

/-- Claim C2 witness: a concrete environment with JOB_NAME set but
TASK_INDEX unset makes get_task_spec raise KeyError. -/
theorem c2_env_fallback_raises_witness :
    get_task_spec (Args.mk none none none none)
        (Env.mk (some "worker") none (some "p:1") (some "w:1") none)
      = Except.error (PyError.keyError "TASK_INDEX") :=
  c2_env_fallback_always_raises (Args.mk none none none none)
    (Env.mk (some "worker") none (some "p:1") (some "w:1") none) rfl rfl

/-- Claim C2 counterexample: even a fully well-formed environment (all four
variables set to reasonable values) makes get_task_spec raise a TypeError
rather than return a TaskSpec, refuting the claim that the environment
fallback path never fails. -/
theorem c2_counterexample :
    get_task_spec (Args.mk none none none none)
        (Env.mk (some "worker") (some "1") (some "p:1") (some "w:1") none)
      = Except.error (PyError.typeError "unhashable list key in os.environ.get") := rfl

/-- Claim C6 counterexample: an empty host list is a supplied (non-None)
argument, yet with ps_hosts=[] and worker_hosts="c:3" the constructed
TaskSpec has no cluster_spec, because the source guard is Python
truthiness, not presence. -/
theorem c6_counterexample :
    (TaskSpec.init "worker" (PyVal.vint 1) (HostsVal.vlist []) (HostsVal.vstr "c:3")).cluster_spec
        = none
    ∧ HostsVal.vlist [] ≠ HostsVal.vnone
    ∧ HostsVal.vstr "c:3" ≠ HostsVal.vnone := by
  exact ⟨rfl, by decide, by decide⟩

/-- Claim C6 (amended): for every TaskSpec construction, cluster_spec is
present iff both host arguments are truthy, i.e. non-None and non-empty (an
empty list or empty string counts as absent). -/
theorem c6_cluster_present_iff_truthy (jn : String) (idx : PyVal) (ps wh : HostsVal) :
    (TaskSpec.init jn idx ps wh).cluster_spec.isSome = (ps.truthy && wh.truthy) := by
  cases h : ps.truthy && wh.truthy <;> simp [TaskSpec.init, h]

/-- Claim C8: a comma separated host string is split on commas
("a:1,b:2" yields ps=["a:1","b:2"], "c:3" yields worker=["c:3"]) and list
arguments are used as is in the cluster mapping. -/
theorem c8_hosts_string_or_list (jn : String) (idx : PyVal) :
    (TaskSpec.init jn idx (HostsVal.vstr "a:1,b:2") (HostsVal.vstr "c:3")).cluster_spec
        = some ([ "a:1", "b:2" ], [ "c:3" ])
    ∧ ∀ (xs ys : List String), xs ≠ [] → ys ≠ [] →
        (TaskSpec.init jn idx (HostsVal.vlist xs) (HostsVal.vlist ys)).cluster_spec
          = some (xs, ys) := by
  constructor
  · rfl
  · intro xs ys hx hy
    simp [TaskSpec.init, HostsVal.truthy, HostsVal.toHostList, hx, hy]

/-- Claim C8 witness: concrete string and list host arguments. -/
theorem c8_hosts_witness :
    (TaskSpec.init "worker" PyVal.vnone (HostsVal.vstr "a:1,b:2") (HostsVal.vstr "c:3")).cluster_spec
        = some ([ "a:1", "b:2" ], [ "c:3" ])
    ∧ (TaskSpec.init "worker" PyVal.vnone (HostsVal.vlist [ "h:1" ]) (HostsVal.vlist [ "k:2" ])).cluster_spec
        = some ([ "h:1" ], [ "k:2" ]) :=
  ⟨(c8_hosts_string_or_list "worker" PyVal.vnone).1,
   (c8_hosts_string_or_list "worker" PyVal.vnone).2 [ "h:1" ] [ "k:2" ]
     (by decide) (by decide)⟩

/-- Claim C5: begin() records now + duration as the deadline; an after_run
call at a time not past the deadline (the source comparison is strict)
leaves the run context untouched, and an after_run call past the deadline
issues exactly one request_stop.  The hook's own state is immutable in
after_run, so being past the fixed deadline is terminal. -/
theorem c5_stop_at_time_hook (d now t : Int) (ctx : RunContext) :
    ((StopAtTimeHook.init d).begin now).end_time = some (now + d)
    ∧ (t ≤ now + d →
        StopAtTimeHook.after_run ((StopAtTimeHook.init d).begin now) t ctx
          = Except.ok ctx)
    ∧ (now + d < t →
        StopAtTimeHook.after_run ((StopAtTimeHook.init d).begin now) t ctx
          = Except.ok (RunContext.mk (ctx.stop_requests + 1))) := by
  refine ⟨rfl, fun ht => ?_, fun ht => ?_⟩
  · simp only [StopAtTimeHook.init, StopAtTimeHook.begin, StopAtTimeHook.after_run]
    rw [if_neg (by omega)]
  · simp only [StopAtTimeHook.init, StopAtTimeHook.begin, StopAtTimeHook.after_run,
      RunContext.request_stop]
    rw [if_pos (by omega)]

/-- Claim C5 witness: a hook of duration 1 begun at time 0 does not request
stop at time 1 and requests stop exactly once at time 2. -/
theorem c5_stop_at_time_hook_witness :
    ((StopAtTimeHook.init 1).begin 0).end_time = some 1
    ∧ StopAtTimeHook.after_run ((StopAtTimeHook.init 1).begin 0) 1 (RunContext.mk 0)
        = Except.ok (RunContext.mk 0)
    ∧ StopAtTimeHook.after_run ((StopAtTimeHook.init 1).begin 0) 2 (RunContext.mk 0)
        = Except.ok (RunContext.mk 1) :=
  ⟨(c5_stop_at_time_hook 1 0 1 (RunContext.mk 0)).1,
   (c5_stop_at_time_hook 1 0 1 (RunContext.mk 0)).2.1 (by decide),
   (c5_stop_at_time_hook 1 0 2 (RunContext.mk 0)).2.2 (by decide)⟩

/-- Claim C7: with a truthy CLI job name, get_task_spec returns the same
result under any two environments (the environment is ignored entirely),
and that result is the TaskSpec built from the CLI values, whose job_name
and index fields are exactly the CLI job name and raw CLI index value. -/
theorem c7_cli_args_ignore_env (args : Args) (env env2 : Env) (s : String)
    (hjob : args.job_name = some s) (hs : s ≠ "") :
    get_task_spec args env = get_task_spec args env2
    ∧ get_task_spec args env
        = Except.ok (TaskSpec.init s (optPyVal args.task_index)
            (optHosts args.ps_hosts) (optHosts args.worker_hosts))
    ∧ (TaskSpec.init s (optPyVal args.task_index) (optHosts args.ps_hosts)
        (optHosts args.worker_hosts)).job_name = s
    ∧ (TaskSpec.init s (optPyVal args.task_index) (optHosts args.ps_hosts)
        (optHosts args.worker_hosts)).index = optPyVal args.task_index := by
  have htr : optStrTruthy (some s) = true := by
    simp [optStrTruthy, hs]
  refine ⟨?_, ?_, rfl, rfl⟩ <;> simp [get_task_spec, hjob, htr]

/-- Claim C7 witness: concrete CLI flags resolve identically under the
empty environment and a fully populated conflicting environment. -/
theorem c7_cli_args_ignore_env_witness :
    get_task_spec (Args.mk (some "worker") (some "3") (some "p:1,p:2") (some "w:1"))
        (Env.mk none none none none none)
      = get_task_spec (Args.mk (some "worker") (some "3") (some "p:1,p:2") (some "w:1"))
          (Env.mk (some "ps") (some "9") (some "q:1") (some "v:1") none)
    ∧ get_task_spec (Args.mk (some "worker") (some "3") (some "p:1,p:2") (some "w:1"))
        (Env.mk none none none none none)
      = Except.ok (TaskSpec.init "worker" (optPyVal (some "3"))
          (optHosts (some "p:1,p:2")) (optHosts (some "w:1")))
    ∧ (TaskSpec.init "worker" (optPyVal (some "3")) (optHosts (some "p:1,p:2"))
        (optHosts (some "w:1"))).job_name = "worker"
    ∧ (TaskSpec.init "worker" (optPyVal (some "3")) (optHosts (some "p:1,p:2"))
        (optHosts (some "w:1"))).index = optPyVal (some "3") :=
  c7_cli_args_ignore_env
    (Args.mk (some "worker") (some "3") (some "p:1,p:2") (some "w:1"))
    (Env.mk none none none none none)
    (Env.mk (some "ps") (some "9") (some "q:1") (some "v:1") none)
    "worker" rfl (by decide)

/-- Claim C9: whenever get_task_spec resolves to a task spec with a cluster
topology and job name 'ps', Trainer.train reaches server.join() and blocks
forever: the serverJoin outcome carries no graph construction, no callback
invocation and no completion, for every trainer, callback configuration and
step count. -/
theorem c9_ps_role_blocks (self : Trainer) (args : Args) (env : Env)
    (ts : TaskSpec) (has_pre has_post : Bool) (steps : Nat)
    (hts : get_task_spec args env = Except.ok ts)
    (hcluster : ts.cluster_spec.isSome = true)
    (hps : ts.job_name = "ps") :
    Trainer.train self args env has_pre has_post steps
      = Except.ok TrainOutcome.serverJoin := by
  simp [Trainer.train, hts, hcluster, hps]

/-- Claim C9 witness: a parameter-server CLI configuration with both host
lists set makes Trainer.train block in server.join. -/
theorem c9_ps_role_blocks_witness :
    Trainer.train sampleTrainer
        (Args.mk (some "ps") (some "0") (some "p:1") (some "w:1"))
        (Env.mk none none none none none) true true 3
      = Except.ok TrainOutcome.serverJoin :=
  c9_ps_role_blocks sampleTrainer
    (Args.mk (some "ps") (some "0") (some "p:1") (some "w:1"))
    (Env.mk none none none none none)
    (TaskSpec.mk "ps" (PyVal.vstr "0") (some ([ "p:1" ], [ "w:1" ])))
    true true 3 rfl rfl rfl

/-- Claim C10: get_task_spec performs no integer conversion on the index.
On the CLI branch the stored index is the raw flag value (a string, or
None), so the chief test `task_spec.index == 0` of Trainer.train is false
for every CLI-resolved task; the environment branch never returns a task
spec at all; and the local default branch and a TF_CONFIG whose JSON index
is the number 0 do yield a chief. -/
theorem c10_chief_only_from_default_or_tf_config :
    (∀ (args : Args) (env : Env) (ts : TaskSpec),
        optStrTruthy args.job_name = true →
        get_task_spec args env = Except.ok ts →
        ts.index = optPyVal args.task_index ∧ is_chief ts = false)
    ∧ (∀ (args : Args) (env : Env) (ts : TaskSpec),
        optStrTruthy args.job_name = false →
        env.job_name.isSome = true →
        get_task_spec args env ≠ Except.ok ts)
    ∧ (get_task_spec (Args.mk none none none none) (Env.mk none none none none none)
          = Except.ok (TaskSpec.mk "mater" (PyVal.vint 0) none)
        ∧ is_chief (TaskSpec.mk "mater" (PyVal.vint 0) none) = true)
    ∧ (get_task_spec (Args.mk none none none none)
          (Env.mk none none none none (some (TFConfig.mk
            (some (TFTask.mk "worker" (PyVal.vint 0)))
            (some (TFCluster.mk (HostsVal.vlist [ "p:1" ]) (HostsVal.vlist [ "w:1", "w:2" ]))))))
          = Except.ok (TaskSpec.mk "worker" (PyVal.vint 0) (some ([ "p:1" ], [ "w:1", "w:2" ])))
        ∧ is_chief (TaskSpec.mk "worker" (PyVal.vint 0) (some ([ "p:1" ], [ "w:1", "w:2" ]))) = true) := by
  refine ⟨?_, ?_, ⟨rfl, rfl⟩, ⟨rfl, rfl⟩⟩
  · intro args env ts htr hok
    have hts : ts = TaskSpec.init (args.job_name.getD "") (optPyVal args.task_index)
        (optHosts args.ps_hosts) (optHosts args.worker_hosts) := by
      simp [get_task_spec, htr] at hok
      exact hok.symm
    subst hts
    refine ⟨rfl, ?_⟩
    cases args.task_index <;> simp [is_chief, TaskSpec.init, optPyVal, pyEq]
  · intro args env ts hcli henv hok
    rw [get_task_spec_env_branch_error args env hcli henv] at hok
    exact Except.noConfusion hok

/-- Claim C10 witness: the CLI flag --task_index "0" is stored as the raw
string "0" and does not satisfy the chief test. -/
theorem c10_chief_witness :
    (TaskSpec.mk "worker" (PyVal.vstr "0") none).index = PyVal.vstr "0"
    ∧ is_chief (TaskSpec.mk "worker" (PyVal.vstr "0") none) = false :=
  c10_chief_only_from_default_or_tf_config.1
    (Args.mk (some "worker") (some "0") none none)
    (Env.mk none none none none none)
    (TaskSpec.mk "worker" (PyVal.vstr "0") none)
    (by decide) rfl

/-- Helper: one Trainer construction never removes entries from the shared
default hooks list. -/
theorem hooks_mem_after_init (a : InitArgs) (st : Defaults) (h : Hook)
    (hmem : h ∈ st.hooks) : h ∈ (Trainer.initArgs a st).2.hooks := by
  cases ha : a.hooks with
  | some l => simpa [Trainer.initArgs, Trainer.init, ha] using hmem
  | none =>
      simp only [Trainer.initArgs, Trainer.init, ha]
      exact List.mem_append_left _ hmem

/-- Helper: a sequence of Trainer constructions never removes entries from
the shared default hooks list. -/
theorem hooks_mem_after_runInits (l : List InitArgs) (st : Defaults) (h : Hook)
    (hmem : h ∈ st.hooks) : h ∈ (runInits st l).hooks := by
  induction l generalizing st with
  | nil => simpa [runInits] using hmem
  | cons a rest ih =>
      simp only [runInits, List.foldl_cons]
      exact ih ((Trainer.initArgs a st).2) (hooks_mem_after_init a st h hmem)

/-- Claim C3: the `hooks=[]` default argument is one shared list object.
Constructing a Trainer with positive max_time and the hooks argument
defaulted appends a StopAtTimeHook to that shared list, and the hook is
still present, after arbitrarily many further Trainer constructions, in the
hooks list of any later Trainer that also defaults its hooks argument. -/
theorem c3_default_hooks_list_shared (a1 a2 : InitArgs) (mid : List InitArgs)
    (st : Defaults) (h1 : a1.hooks = none) (hpos : 0 < a1.max_time)
    (h2 : a2.hooks = none) :
    Hook.stopAtTime (StopAtTimeHook.init a1.max_time) ∈
      Trainer.hooks
        (Trainer.initArgs a2 (runInits (Trainer.initArgs a1 st).2 mid)).1
        (Trainer.initArgs a2 (runInits (Trainer.initArgs a1 st).2 mid)).2 := by
  have step1 : Hook.stopAtTime (StopAtTimeHook.init a1.max_time)
      ∈ (Trainer.initArgs a1 st).2.hooks := by
    simp [Trainer.initArgs, Trainer.init, h1, stopHooksFor, hpos]
  have step2 := hooks_mem_after_runInits mid ((Trainer.initArgs a1 st).2) _ step1
  have step3 := hooks_mem_after_init a2 (runInits (Trainer.initArgs a1 st).2 mid) _ step2
  have href : (Trainer.initArgs a2 (runInits (Trainer.initArgs a1 st).2 mid)).1.hooks_ref
      = HooksRef.shared := by
    simp [Trainer.initArgs, Trainer.init, h2]
  simpa [Trainer.hooks, href] using step3

/-- Claim C3 witness: a Trainer built with max_time 5 and defaulted hooks
leaks its StopAtTimeHook into a later Trainer built with max_time -1 and
defaulted hooks, starting from pristine empty default lists. -/
theorem c3_default_hooks_list_shared_witness :
    Hook.stopAtTime (StopAtTimeHook.init 5) ∈
      Trainer.hooks
        (Trainer.initArgs (sampleInit (-1))
          (runInits (Trainer.initArgs (sampleInit 5) (Defaults.mk [] [])).2 [])).1
        (Trainer.initArgs (sampleInit (-1))
          (runInits (Trainer.initArgs (sampleInit 5) (Defaults.mk [] [])).2 [])).2 :=
  c3_default_hooks_list_shared (sampleInit 5) (sampleInit (-1)) []
    (Defaults.mk [] []) rfl (by decide) rfl

/-- Claim C4: a Trainer construction with positive max_time appends exactly
one StopAtTimeHook to its hooks list (the list it aliases becomes the prior
contents plus that single hook), and a construction with non-positive
max_time (such as the default -1) appends none (the list is unchanged). -/
theorem c4_stop_hook_append_count (a : InitArgs) (st : Defaults) :
    (0 < a.max_time →
      Trainer.hooks (Trainer.initArgs a st).1 (Trainer.initArgs a st).2
        = hooks_before a.hooks st ++ [Hook.stopAtTime (StopAtTimeHook.init a.max_time)])
    ∧ (a.max_time ≤ 0 →
      Trainer.hooks (Trainer.initArgs a st).1 (Trainer.initArgs a st).2
        = hooks_before a.hooks st) := by
  have heq : Trainer.hooks (Trainer.initArgs a st).1 (Trainer.initArgs a st).2
      = hooks_before a.hooks st ++ stopHooksFor a.max_time := by
    cases ha : a.hooks <;>
      simp [Trainer.initArgs, Trainer.init, Trainer.hooks, hooks_before, ha]
  constructor <;> intro hm <;> rw [heq, stopHooksFor]
  · rw [if_pos hm]
  · rw [if_neg (by omega)]
    simp

/-- Claim C4 witness: from empty default lists, max_time 5 yields exactly
the single appended StopAtTimeHook and max_time -1 yields no hook. -/
theorem c4_stop_hook_append_count_witness :
    Trainer.hooks (Trainer.initArgs (sampleInit 5) (Defaults.mk [] [])).1
        (Trainer.initArgs (sampleInit 5) (Defaults.mk [] [])).2
      = hooks_before (sampleInit 5).hooks (Defaults.mk [] [])
          ++ [Hook.stopAtTime (StopAtTimeHook.init 5)]
    ∧ Trainer.hooks (Trainer.initArgs (sampleInit (-1)) (Defaults.mk [] [])).1
        (Trainer.initArgs (sampleInit (-1)) (Defaults.mk [] [])).2
      = hooks_before (sampleInit (-1)).hooks (Defaults.mk [] []) :=
  ⟨(c4_stop_hook_append_count (sampleInit 5) (Defaults.mk [] [])).1 (by decide),
   (c4_stop_hook_append_count (sampleInit (-1)) (Defaults.mk [] [])).2 (by decide)⟩

end TrainerPy
